import Mathlib

/-!
# Verification of the `atmosphere` environmental-telemetry sampler

Shallow embedding of `src/main.rs`: a long-running loop that triggers a
BME680 sensor in forced mode, reads it, builds four InfluxDB data points and
publishes them, sleeping three times the conversion-profile duration of the sensor
between cycles.

External collaborators (the `bme680` driver, the `dotenv`/env lookup, the
`influxdb2_client`, and the `f32` string parser of Rust) are modelled as oracles:
records of the results the environment returns for each call the program
makes.  Everything the program itself does with those results is translated
line by line from the source.  Durations are in milliseconds (`Nat`); the
numeric field values (`f32` readings cast with `as f64`, a lossless cast) are
modelled as `ℚ`.  The trace of a run records every observable action: log
lines, the forced-mode set, the sensor read, the publish call and the sleeps.

`main` has return type `Result<(), ()>`, so every `?` that fires makes the
process exit with a non-zero status; the `aborted : Bool` component of a run
records exactly that.
-/

deriving instance DecidableEq for Except

namespace Atmosphere

/-- Milliseconds; `std::time::Duration` values in the source are exact
multiples of a millisecond (1500 ms gas-heater duration, profile duration,
5-minute warm-up). -/
abbrev Ms := Nat

/-- `bme680::FieldDataCondition`: validity tag returned with a reading. -/
inductive FieldDataCondition where
  | NewData
  | NoNewData
deriving DecidableEq, Repr

/-- The four accessors of `bme680::FieldData` the program calls, each an
`f32` that the program casts with `as f64` (lossless), modelled as `ℚ`. -/
structure FieldData where
  temperature_celsius : ℚ
  humidity_percent : ℚ
  pressure_hpa : ℚ
  gas_resistance_ohm : ℚ
deriving DecidableEq, Repr

/-- The part of `influxdb2_client::models::DataPoint` the program constructs:
a measurement name, the tag list and the field list. -/
structure DataPoint where
  measurement : String
  tags : List (String × String)
  fields : List (String × ℚ)
deriving DecidableEq, Repr

/-- Successful result of
`DataPoint::builder(name).tag("host", host).field("value", v).build()`. -/
def dataPoint (name host : String) (value : ℚ) : DataPoint :=
  { measurement := name, tags := [("host", host)], fields := [("value", value)] }

/-- Oracle for the fallible calls one loop iteration makes: the driver calls
`set_sensor_mode` and `get_sensor_data`, the four `DataPoint` builds
(`some e` = the builder returns `Err(e)`), and the influx `client.write`. -/
structure CycleBehavior where
  setMode : Except String Unit
  read : Except String (FieldData × FieldDataCondition)
  buildTemp : Option String
  buildHum : Option String
  buildPres : Option String
  buildGas : Option String
  write : Except String Unit
deriving DecidableEq, Repr

/-- Observable actions of a run, in order. -/
inductive Event where
  | logInfo (msg : String)
  | logError (msg : String)
  | setForcedMode
  | sensorRead
  | publish (org bucket : String) (points : List DataPoint)
  | sleepMs (d : Ms)
deriving DecidableEq, Repr

def isPublish : Event → Bool
  | .publish _ _ _ => true
  | _ => false

def isSleep : Event → Bool
  | .sleepMs _ => true
  | _ => false

/-- The configuration the steady-state loop closes over. -/
structure LoopConfig where
  host_tag : String
  influx_organization : String
  influx_bucket : String
  /-- the already-tripled `profile_dur` slept between samples -/
  profile_dur : Ms
deriving DecidableEq, Repr

/-- The `vec![...]` of the four data points, each built with
`.map_err(|e| error!(...))?`: elements are evaluated in order and the first
failing build short-circuits.  On failure the result carries the point name
and the builder error, from which the log line is formed. -/
def buildPoints (host : String) (d : FieldData) (b : CycleBehavior) :
    Except (String × String) (List DataPoint) :=
  match b.buildTemp with
  | some e => .error ("temperature_c", e)
  | none =>
  match b.buildHum with
  | some e => .error ("relative_humidity", e)
  | none =>
  match b.buildPres with
  | some e => .error ("pressure_hpa", e)
  | none =>
  match b.buildGas with
  | some e => .error ("gas_resistance_ohms", e)
  | none =>
  .ok [dataPoint "temperature_c" host d.temperature_celsius,
       dataPoint "relative_humidity" host d.humidity_percent,
       dataPoint "pressure_hpa" host d.pressure_hpa,
       dataPoint "gas_resistance_ohms" host d.gas_resistance_ohm]

/-- One iteration of the `loop { ... }` body.  Returns the events the
iteration emits and whether it aborted the process (a `?` fired, returning
`Err(())` from `main`). -/
def runCycle (cfg : LoopConfig) (b : CycleBehavior) : List Event × Bool :=
  match b.setMode with
  | .error e =>
      ([.setForcedMode, .logError ("Failed to set PowerMode::ForcedMode " ++ e)], true)
  | .ok _ =>
  match b.read with
  | .error e =>
      ([.setForcedMode, .sensorRead, .logError ("Failed to get sensor reading " ++ e)], true)
  | .ok (data, state) =>
  if state = .NewData then
    match buildPoints cfg.host_tag data b with
    | .error (name, e) =>
        ([.setForcedMode, .sensorRead,
          .logError ("Failed to create data point " ++ name ++ " " ++ e)], true)
    | .ok points =>
      match b.write with
      | .ok _ =>
          ([.setForcedMode, .sensorRead,
            .publish cfg.influx_organization cfg.influx_bucket points,
            .sleepMs cfg.profile_dur], false)
      | .error e =>
          ([.setForcedMode, .sensorRead,
            .publish cfg.influx_organization cfg.influx_bucket points,
            .logError ("Failed to write data points to influxdb: " ++ e),
            .sleepMs cfg.profile_dur], false)
  else
    ([.setForcedMode, .sensorRead, .sleepMs cfg.profile_dur], false)

/-- The loop run over a finite prefix of cycle behaviors: stops early (with
`aborted = true`) as soon as an iteration aborts the process. -/
def runCycles (cfg : LoopConfig) : List CycleBehavior → List Event × Bool
  | [] => ([], false)
  | b :: rest =>
    let (evs, aborted) := runCycle cfg b
    if aborted then (evs, true)
    else
      let (evs2, ab2) := runCycles cfg rest
      (evs ++ evs2, ab2)

/-- Oracle for the startup environment: the result of `dotenv::dotenv()` and
the environment-variable lookup `dotenv::var` (`none` = `Err(NotPresent)`). -/
structure Env where
  dotenvLoad : Except String Unit
  vars : String → Option String

/-- Oracle for the fallible hardware calls made once during startup:
`I2cdev::new("/dev/i2c-1")`, `Bme680::init(..., I2CAddress::Secondary)`,
`dev.set_sensor_settings(..)` and `dev.get_profile_dur(&settings.0)` (the
profile duration, in ms). -/
structure HwBehavior where
  i2cOpen : Except String Unit
  bmeInit : Except String Unit
  setSettings : Except String Unit
  profileDur : Except String Ms

/-- The bindings `main` holds just after `get_profile_dur` succeeds, before
the `profile_dur *= 3` line. -/
structure StartCfg where
  influx_token : String
  influx_bucket : String
  influx_address : String
  influx_organization : String
  host_tag : String
  temperature_offset : ℚ
  rawProfileDur : Ms
deriving DecidableEq, Repr

/-- `profile_dur *= 3;` — the cadence computation. -/
def tripleDur (p : Ms) : Ms := p * 3

/-- The 5-minute warm-up sleep `Duration::from_secs(5*60)`, in ms. -/
def warmupMs : Ms := 5 * 60 * 1000

/-- The startup sequence of `main`, line by line, up to the tripling of the
profile duration.  `parseF` models `str::parse::<f32>` (`none` = parse
error); the lossless values are carried as `ℚ`.  `.error m` means the
corresponding `map_err(|e| error!(..))?` fired with log line `m` and the
process exits non-zero.  Note the log message in the source for a missing
`INFLUX_ADDRESS` really says `INFLUX_BUCKET` (a copy-paste slip kept here
verbatim). -/
def startup (parseF : String → Option ℚ) (env : Env) (hw : HwBehavior) :
    Except String StartCfg :=
  match env.dotenvLoad with
  | .error e => .error ("Failed to load .env file for configuration: " ++ e)
  | .ok _ =>
  match env.vars "INFLUX_TOKEN" with
  | none => .error "Failed to load INFLUX_TOKEN"
  | some influx_token =>
  match env.vars "INFLUX_BUCKET" with
  | none => .error "Failed to load INFLUX_BUCKET"
  | some influx_bucket =>
  match env.vars "INFLUX_ADDRESS" with
  | none => .error "Failed to load INFLUX_BUCKET"
  | some influx_address =>
  match env.vars "INFLUX_ORGANIZATION" with
  | none => .error "Failed to load INFLUX_ORGANIZATION"
  | some influx_organization =>
  match parseF ((env.vars "TEMP_OFFSET").getD "0") with
  | none => .error "Failed to load temp offset from TEMP_OFFSET"
  | some temperature_offset =>
  match hw.i2cOpen with
  | .error e => .error ("Failed to load I2C device: " ++ e)
  | .ok _ =>
  match hw.bmeInit with
  | .error e => .error ("Failed to init BME680. " ++ e)
  | .ok _ =>
  match hw.setSettings with
  | .error e => .error ("Failed to set BME680 sensor settings. " ++ e)
  | .ok _ =>
  match hw.profileDur with
  | .error e => .error ("Failed to get profile duration: " ++ e)
  | .ok p =>
  .ok { influx_token, influx_bucket, influx_address, influx_organization,
        host_tag := (env.vars "HOSTNAME").getD "unknown",
        temperature_offset, rawProfileDur := p }

/-- The configuration the loop closes over, given a successful startup. -/
def mkLoopConfig (c : StartCfg) : LoopConfig :=
  { host_tag := c.host_tag
    influx_organization := c.influx_organization
    influx_bucket := c.influx_bucket
    profile_dur := tripleDur c.rawProfileDur }

/-- The whole of `main`, run over a finite prefix of cycle behaviors:
startup (fatal on failure, with the log line as sole event), the two
profile-duration info lines, the 5-minute warm-up sleep flanked by its info
lines, then the sampling loop. -/
def runProgram (parseF : String → Option ℚ) (env : Env) (hw : HwBehavior)
    (cycles : List CycleBehavior) : List Event × Bool :=
  match startup parseF env hw with
  | .error m => ([.logError m], true)
  | .ok c =>
    let cfg := mkLoopConfig c
    let pre : List Event :=
      [.logInfo ("Profile duration set to: " ++ toString c.rawProfileDur),
       .logInfo ("Tripling duration to: " ++ toString cfg.profile_dur),
       .logInfo "Waiting 5m for device to stabilize before reading.",
       .sleepMs warmupMs,
       .logInfo "Starting readings."]
    let (cevs, ab) := runCycles cfg cycles
    (pre ++ cevs, ab)

/-- Whether an `Except` is a success. -/
def exOk {ε α : Type _} : Except ε α → Bool
  | .ok _ => true
  | .error _ => false

/-- An iteration whose driver calls and point builds all succeed (its
publish may still fail): such an iteration never aborts the process. -/
def cycleOk (b : CycleBehavior) : Bool :=
  exOk b.setMode && exOk b.read &&
  b.buildTemp.isNone && b.buildHum.isNone && b.buildPres.isNone && b.buildGas.isNone

/-! ## Concrete fixtures used by witnesses and counterexamples -/

/-- A parse oracle agreeing with `"0".parse::<f32>() == Ok(0.0)`. -/
def parse0 : String → Option ℚ := fun s => if s = "0" then some 0 else none

/-- An environment with the four influx variables set and `HOSTNAME` and
`TEMP_OFFSET` absent. -/
def env0 : Env :=
  { dotenvLoad := .ok ()
    vars := fun s =>
      if s = "INFLUX_TOKEN" then some "token0"
      else if s = "INFLUX_BUCKET" then some "bucket0"
      else if s = "INFLUX_ADDRESS" then some "influx.local:8086"
      else if s = "INFLUX_ORGANIZATION" then some "org0"
      else none }

/-- `env0` with `INFLUX_TOKEN` removed. -/
def envNoToken : Env :=
  { dotenvLoad := .ok ()
    vars := fun s => if s = "INFLUX_TOKEN" then none else env0.vars s }

/-- `env0` with an unparsable `TEMP_OFFSET`. -/
def envBadOffset : Env :=
  { dotenvLoad := .ok ()
    vars := fun s => if s = "TEMP_OFFSET" then some "zero" else env0.vars s }

/-- Hardware that starts up cleanly and reports a 1500 ms conversion
profile. -/
def hw0 : HwBehavior :=
  { i2cOpen := .ok (), bmeInit := .ok (), setSettings := .ok (), profileDur := .ok 1500 }

/-- The startup result on `parse0`/`env0`/`hw0`. -/
def startCfg0 : StartCfg :=
  { influx_token := "token0", influx_bucket := "bucket0",
    influx_address := "influx.local:8086", influx_organization := "org0",
    host_tag := "unknown", temperature_offset := 0, rawProfileDur := 1500 }

def cfg0 : LoopConfig := mkLoopConfig startCfg0

/-- The end-to-end scenario reading of the spec: 22.5 °C, 45 %, 1013.2 hPa,
12000 Ω. -/
def data0 : FieldData :=
  { temperature_celsius := 45 / 2, humidity_percent := 45,
    pressure_hpa := 10132 / 10, gas_resistance_ohm := 12000 }

/-- A cycle in which everything succeeds and the reading is fresh. -/
def bGood : CycleBehavior :=
  { setMode := .ok (), read := .ok (data0, .NewData),
    buildTemp := none, buildHum := none, buildPres := none, buildGas := none,
    write := .ok () }

def bNoNew : CycleBehavior := { bGood with read := .ok (data0, .NoNewData) }

def bSetModeFail : CycleBehavior := { bGood with setMode := .error "bus fault" }

def bBuildFail : CycleBehavior := { bGood with buildTemp := some "rejected point" }

def bWriteFail : CycleBehavior := { bGood with write := .error "connection refused" }

/-- The batch the loop builds from `data0` with host tag `unknown`. -/
def points0 : List DataPoint :=
  [dataPoint "temperature_c" "unknown" (45 / 2),
   dataPoint "relative_humidity" "unknown" 45,
   dataPoint "pressure_hpa" "unknown" (10132 / 10),
   dataPoint "gas_resistance_ohms" "unknown" 12000]

/-! ## Shared helper lemmas -/

/-- A successful batch build is exactly the four points, in source order. -/
theorem buildPoints_ok (host : String) (d : FieldData) (b : CycleBehavior)
    (ps : List DataPoint) (h : buildPoints host d b = .ok ps) :
    ps = [dataPoint "temperature_c" host d.temperature_celsius,
          dataPoint "relative_humidity" host d.humidity_percent,
          dataPoint "pressure_hpa" host d.pressure_hpa,
          dataPoint "gas_resistance_ohms" host d.gas_resistance_ohm] := by
  unfold buildPoints at h
  repeat' split at h
  all_goals simp_all

/-- A non-aborting iteration appends its events and hands control to the
rest of the loop. -/
theorem runCycles_cons_ok (cfg : LoopConfig) (b : CycleBehavior)
    (rest : List CycleBehavior) (h : (runCycle cfg b).2 = false) :
    runCycles cfg (b :: rest) =
      ((runCycle cfg b).1 ++ (runCycles cfg rest).1, (runCycles cfg rest).2) := by
  simp [runCycles, h]

/-- An aborting iteration ends the run. -/
theorem runCycles_cons_abort (cfg : LoopConfig) (b : CycleBehavior)
    (rest : List CycleBehavior) (h : (runCycle cfg b).2 = true) :
    runCycles cfg (b :: rest) = ((runCycle cfg b).1, true) := by
  simp [runCycles, h]

/-- A cycle whose driver calls and builds succeed never aborts. -/
theorem cycleOk_no_abort (cfg : LoopConfig) (b : CycleBehavior)
    (h : cycleOk b = true) : (runCycle cfg b).2 = false := by
  unfold cycleOk exOk at h
  unfold runCycle
  repeat' split
  all_goals simp_all [buildPoints]

/-- A loop over failure-free cycles never aborts. -/
theorem runCycles_ok (cfg : LoopConfig) (bs : List CycleBehavior)
    (h : ∀ b ∈ bs, cycleOk b = true) : (runCycles cfg bs).2 = false := by
  induction bs with
  | nil => simp [runCycles]
  | cons b rest ih =>
    have hb := cycleOk_no_abort cfg b (h b (List.mem_cons_self b rest))
    rw [runCycles_cons_ok cfg b rest hb]
    exact ih fun x hx => h x (List.mem_cons_of_mem b hx)

/-- Every sleep an iteration performs is the tripled-profile sleep. -/
theorem runCycle_sleep (cfg : LoopConfig) (b : CycleBehavior) :
    ∀ e ∈ (runCycle cfg b).1, isSleep e = true → e = Event.sleepMs cfg.profile_dur := by
  unfold runCycle
  repeat' split
  all_goals intro e he hs
  all_goals simp_all [isSleep]
  all_goals rcases he with h | h | h | h | h <;> simp_all [isSleep]

/-- Every sleep the loop performs is the tripled-profile sleep. -/
theorem runCycles_sleep (cfg : LoopConfig) (bs : List CycleBehavior) :
    ∀ e ∈ (runCycles cfg bs).1, isSleep e = true → e = Event.sleepMs cfg.profile_dur := by
  induction bs with
  | nil => simp [runCycles]
  | cons b rest ih =>
    intro e he hs
    unfold runCycles at he
    rcases hab : (runCycle cfg b).2 with _ | _ <;> simp [hab] at he
    · rcases he with he | he
      · exact runCycle_sleep cfg b e he hs
      · exact ih e he hs
    · exact runCycle_sleep cfg b e he hs

/-- The only publish an iteration can emit targets the configured
organization and bucket, and every point of the batch it carries is tagged
with the configured host. -/
theorem runCycle_publish (cfg : LoopConfig) (b : CycleBehavior)
    (org bucket : String) (pts : List DataPoint)
    (h : Event.publish org bucket pts ∈ (runCycle cfg b).1) :
    org = cfg.influx_organization ∧ bucket = cfg.influx_bucket ∧
    ∀ pt ∈ pts, pt.tags = [("host", cfg.host_tag)] := by
  rcases hsm : b.setMode with e | u
  · simp [runCycle, hsm] at h
  · rcases hr : b.read with e | ⟨d, st⟩
    · simp [runCycle, hsm, hr] at h
    · rcases st with _ | _
      · rcases hbp : buildPoints cfg.host_tag d b with ⟨n, e⟩ | pts2
        · simp [runCycle, hsm, hr, hbp] at h
        · have hps := buildPoints_ok cfg.host_tag d b pts2 hbp
          rcases hwr : b.write with e | u2 <;>
            simp [runCycle, hsm, hr, hbp, hwr] at h <;>
            obtain ⟨h1, h2, h3⟩ := h <;> subst h1 <;> subst h2 <;> subst h3 <;>
            refine ⟨rfl, rfl, ?_⟩ <;> subst hps <;>
            intro pt hpt <;> simp [dataPoint] at hpt <;>
            rcases hpt with rfl | rfl | rfl | rfl <;> rfl
      · simp [runCycle, hsm, hr] at h

/-- As `runCycle_publish`, over a whole run of the loop. -/
theorem runCycles_publish (cfg : LoopConfig) (bs : List CycleBehavior)
    (org bucket : String) (pts : List DataPoint)
    (h : Event.publish org bucket pts ∈ (runCycles cfg bs).1) :
    org = cfg.influx_organization ∧ bucket = cfg.influx_bucket ∧
    ∀ pt ∈ pts, pt.tags = [("host", cfg.host_tag)] := by
  induction bs with
  | nil => simp [runCycles] at h
  | cons b rest ih =>
    unfold runCycles at h
    rcases hab : (runCycle cfg b).2 with _ | _ <;> simp [hab] at h
    · rcases h with h | h
      · exact runCycle_publish cfg b org bucket pts h
      · exact ih h
    · exact runCycle_publish cfg b org bucket pts h

/-- What a successful startup pins down: every startup step succeeded and
the configuration fields come from the corresponding variables. -/
theorem startup_ok_spec (parseF : String → Option ℚ) (env : Env) (hw : HwBehavior)
    (c : StartCfg) (h : startup parseF env hw = .ok c) :
    exOk env.dotenvLoad = true ∧
    env.vars "INFLUX_TOKEN" = some c.influx_token ∧
    env.vars "INFLUX_BUCKET" = some c.influx_bucket ∧
    env.vars "INFLUX_ADDRESS" = some c.influx_address ∧
    env.vars "INFLUX_ORGANIZATION" = some c.influx_organization ∧
    c.host_tag = (env.vars "HOSTNAME").getD "unknown" ∧
    parseF ((env.vars "TEMP_OFFSET").getD "0") = some c.temperature_offset ∧
    exOk hw.i2cOpen = true ∧ exOk hw.bmeInit = true ∧ exOk hw.setSettings = true ∧
    hw.profileDur = .ok c.rawProfileDur := by
  unfold startup at h
  repeat' split at h
  all_goals simp_all [exOk]
  subst h
  simp

/-- Startup succeeds when every step succeeds, and returns the resolved
configuration. -/
theorem startup_ok_of (parseF : String → Option ℚ) (env : Env) (hw : HwBehavior)
    (t bu a o : String) (q : ℚ) (p : Ms)
    (h1 : env.dotenvLoad = .ok ()) (h2 : env.vars "INFLUX_TOKEN" = some t)
    (h3 : env.vars "INFLUX_BUCKET" = some bu) (h4 : env.vars "INFLUX_ADDRESS" = some a)
    (h5 : env.vars "INFLUX_ORGANIZATION" = some o)
    (h6 : parseF ((env.vars "TEMP_OFFSET").getD "0") = some q)
    (h7 : hw.i2cOpen = .ok ()) (h8 : hw.bmeInit = .ok ())
    (h9 : hw.setSettings = .ok ()) (h10 : hw.profileDur = .ok p) :
    startup parseF env hw =
      .ok { influx_token := t, influx_bucket := bu, influx_address := a,
            influx_organization := o,
            host_tag := (env.vars "HOSTNAME").getD "unknown",
            temperature_offset := q, rawProfileDur := p } := by
  unfold startup
  rw [h1, h2, h3, h4, h5, h6, h7, h8, h9, h10]

/-- Startup fails at the temperature-offset parse when the variable is set
to an unparsable string and every earlier step succeeds. -/
theorem startup_offset_error (parseF : String → Option ℚ) (env : Env) (hw : HwBehavior)
    (s : String)
    (h1 : env.dotenvLoad = .ok ())
    (h2 : (env.vars "INFLUX_TOKEN").isSome = true)
    (h3 : (env.vars "INFLUX_BUCKET").isSome = true)
    (h4 : (env.vars "INFLUX_ADDRESS").isSome = true)
    (h5 : (env.vars "INFLUX_ORGANIZATION").isSome = true)
    (h6 : env.vars "TEMP_OFFSET" = some s) (h7 : parseF s = none) :
    startup parseF env hw = .error "Failed to load temp offset from TEMP_OFFSET" := by
  obtain ⟨t, ht⟩ := Option.isSome_iff_exists.mp h2
  obtain ⟨bu, hbu⟩ := Option.isSome_iff_exists.mp h3
  obtain ⟨a, ha⟩ := Option.isSome_iff_exists.mp h4
  obtain ⟨o, ho⟩ := Option.isSome_iff_exists.mp h5
  unfold startup
  rw [h1, ht, hbu, ha, ho, h6]
  simp [h7]

/-! ## Claims -/

/-- C3 (cadence computation): the inter-sample interval is three times the
conversion-profile duration reported by the sensor, hence at least the
profile duration; a 1500 ms profile yields a 4500 ms interval. -/
theorem cadence_compute (p : Ms) :
    tripleDur p = 3 * p ∧ p ≤ tripleDur p ∧ tripleDur 1500 = 4500 :=
  ⟨Nat.mul_comm p 3, Nat.le_mul_of_pos_right p (by norm_num), rfl⟩

/-- C2 (validity gating): in an iteration whose read returns, a NoNewData
validity makes no publish call; a NewData validity with all four points
built makes exactly one publish call, carrying exactly those four points. -/
theorem validity_gating (cfg : LoopConfig) (b : CycleBehavior) (d : FieldData)
    (st : FieldDataCondition) (hm : b.setMode = .ok ())
    (hread : b.read = .ok (d, st)) :
    (st = .NoNewData → (runCycle cfg b).1.filter isPublish = []) ∧
    (∀ ps, st = .NewData → buildPoints cfg.host_tag d b = .ok ps →
      (runCycle cfg b).1.filter isPublish =
        [Event.publish cfg.influx_organization cfg.influx_bucket ps] ∧
      ps.length = 4) := by
  constructor
  · rintro rfl
    simp [runCycle, hm, hread, isPublish]
  · rintro ps rfl hb
    have hps := buildPoints_ok cfg.host_tag d b ps hb
    rcases hwr : b.write with e | u <;>
      simp [runCycle, hm, hread, hb, hwr, isPublish, hps]

/-- Witness for `validity_gating` at the two concrete validities. -/
theorem validity_gating_witness :
    ((runCycle cfg0 bNoNew).1.filter isPublish = []) ∧
    ((runCycle cfg0 bGood).1.filter isPublish =
       [Event.publish cfg0.influx_organization cfg0.influx_bucket points0] ∧
     points0.length = 4) :=
  ⟨(validity_gating cfg0 bNoNew data0 .NoNewData rfl rfl).1 rfl,
   (validity_gating cfg0 bGood data0 .NewData rfl rfl).2 points0 rfl rfl⟩

/-- C5 (batch determinism): any successfully built batch lists the points in
the fixed order temperature_c, relative_humidity, pressure_hpa,
gas_resistance_ohms; every point carries exactly the one tag
host=(host tag) and exactly one field, value, holding the corresponding
measurement. -/
theorem batch_determinism (host : String) (d : FieldData) (b : CycleBehavior)
    (ps : List DataPoint) (h : buildPoints host d b = .ok ps) :
    ps.map DataPoint.measurement =
      ["temperature_c", "relative_humidity", "pressure_hpa", "gas_resistance_ohms"] ∧
    (∀ pt ∈ ps, pt.tags = [("host", host)] ∧ ∃ v, pt.fields = [("value", v)]) ∧
    ps.map DataPoint.fields =
      [[("value", d.temperature_celsius)], [("value", d.humidity_percent)],
       [("value", d.pressure_hpa)], [("value", d.gas_resistance_ohm)]] := by
  have hps := buildPoints_ok host d b ps h
  subst hps
  refine ⟨rfl, ?_, rfl⟩
  intro pt hpt
  simp [dataPoint] at hpt
  rcases hpt with rfl | rfl | rfl | rfl <;> exact ⟨rfl, _, rfl⟩

/-- Witness for `batch_determinism` on the end-to-end scenario reading. -/
theorem batch_determinism_witness :
    points0.map DataPoint.measurement =
      ["temperature_c", "relative_humidity", "pressure_hpa", "gas_resistance_ohms"] ∧
    (∀ pt ∈ points0, pt.tags = [("host", "unknown")] ∧ ∃ v, pt.fields = [("value", v)]) ∧
    points0.map DataPoint.fields =
      [[("value", data0.temperature_celsius)], [("value", data0.humidity_percent)],
       [("value", data0.pressure_hpa)], [("value", data0.gas_resistance_ohm)]] :=
  batch_determinism "unknown" data0 bGood points0 rfl

/-- C4 (publish failure is non-fatal): when the write to the ingestion
endpoint fails, the failure is logged, the iteration still ends with its
sleep, nothing aborts, and the loop hands control to the next iteration. -/
theorem publish_failure_nonfatal (cfg : LoopConfig) (b : CycleBehavior)
    (d : FieldData) (ps : List DataPoint) (r : String)
    (hm : b.setMode = .ok ()) (hr : b.read = .ok (d, FieldDataCondition.NewData))
    (hb : buildPoints cfg.host_tag d b = .ok ps) (hwr : b.write = .error r) :
    (runCycle cfg b).2 = false ∧
    Event.logError ("Failed to write data points to influxdb: " ++ r) ∈ (runCycle cfg b).1 ∧
    (runCycle cfg b).1.getLast? = some (Event.sleepMs cfg.profile_dur) ∧
    ∀ rest, runCycles cfg (b :: rest) =
      ((runCycle cfg b).1 ++ (runCycles cfg rest).1, (runCycles cfg rest).2) := by
  have hc : runCycle cfg b =
      ([.setForcedMode, .sensorRead,
        .publish cfg.influx_organization cfg.influx_bucket ps,
        .logError ("Failed to write data points to influxdb: " ++ r),
        .sleepMs cfg.profile_dur], false) := by
    simp [runCycle, hm, hr, hb, hwr]
  refine ⟨by rw [hc], by rw [hc]; simp, by rw [hc]; rfl, ?_⟩
  intro rest
  exact runCycles_cons_ok cfg b rest (by rw [hc])

/-- Witness for `publish_failure_nonfatal` at a concrete failing write. -/
theorem publish_failure_nonfatal_witness :
    (runCycle cfg0 bWriteFail).2 = false ∧
    Event.logError ("Failed to write data points to influxdb: " ++ "connection refused")
      ∈ (runCycle cfg0 bWriteFail).1 ∧
    (runCycle cfg0 bWriteFail).1.getLast? = some (Event.sleepMs cfg0.profile_dur) ∧
    ∀ rest, runCycles cfg0 (bWriteFail :: rest) =
      ((runCycle cfg0 bWriteFail).1 ++ (runCycles cfg0 rest).1, (runCycles cfg0 rest).2) :=
  publish_failure_nonfatal cfg0 bWriteFail data0 points0 "connection refused" rfl rfl rfl rfl

/-- C1 counterexample: a forced-mode failure in a steady-state iteration
does not let the loop proceed — the `?` returns `Err(())` from `main`, so
the iteration performs no sleep, the process aborts, and the next (here
failure-free) iteration never runs. -/
theorem cycle_isolation_cex :
    (runCycles cfg0 [bSetModeFail, bGood]).2 = true ∧
    (runCycles cfg0 [bSetModeFail, bGood]).1 =
      [Event.setForcedMode,
       Event.logError ("Failed to set PowerMode::ForcedMode " ++ "bus fault")] :=
  ⟨rfl, rfl⟩

/-- C1 amended: a steady-state failure in setting forced mode, reading the
sensor, or constructing a metric point is logged and the cycle publishes
nothing, but the failure is not cycle-local: the iteration does not even
reach its sleep, the process aborts with a non-zero exit, and no further
iteration runs.  Only a publish failure is cycle-local. -/
theorem cycle_failure_aborts (cfg : LoopConfig) (b : CycleBehavior)
    (h : (∃ e, b.setMode = .error e) ∨
         (b.setMode = .ok () ∧ ∃ e, b.read = .error e) ∨
         (b.setMode = .ok () ∧ ∃ d, b.read = .ok (d, FieldDataCondition.NewData) ∧
            ∃ n e, buildPoints cfg.host_tag d b = .error (n, e))) :
    (runCycle cfg b).2 = true ∧
    (∃ m, Event.logError m ∈ (runCycle cfg b).1) ∧
    (runCycle cfg b).1.filter isPublish = [] ∧
    (runCycle cfg b).1.filter isSleep = [] ∧
    ∀ rest, runCycles cfg (b :: rest) = ((runCycle cfg b).1, true) := by
  rcases h with ⟨e, he⟩ | ⟨hm, e, he⟩ | ⟨hm, d, hr, n, e, hb⟩
  · have hc : runCycle cfg b =
        ([.setForcedMode, .logError ("Failed to set PowerMode::ForcedMode " ++ e)],
         true) := by
      simp [runCycle, he]
    exact ⟨by rw [hc], ⟨"Failed to set PowerMode::ForcedMode " ++ e, by rw [hc]; simp⟩,
      by rw [hc]; rfl, by rw [hc]; rfl,
      fun rest => runCycles_cons_abort cfg b rest (by rw [hc])⟩
  · have hc : runCycle cfg b =
        ([.setForcedMode, .sensorRead,
          .logError ("Failed to get sensor reading " ++ e)], true) := by
      simp [runCycle, hm, he]
    exact ⟨by rw [hc], ⟨"Failed to get sensor reading " ++ e, by rw [hc]; simp⟩,
      by rw [hc]; rfl, by rw [hc]; rfl,
      fun rest => runCycles_cons_abort cfg b rest (by rw [hc])⟩
  · have hc : runCycle cfg b =
        ([.setForcedMode, .sensorRead,
          .logError ("Failed to create data point " ++ n ++ " " ++ e)], true) := by
      simp [runCycle, hm, hr, hb]
    exact ⟨by rw [hc], ⟨"Failed to create data point " ++ n ++ " " ++ e, by rw [hc]; simp⟩,
      by rw [hc]; rfl, by rw [hc]; rfl,
      fun rest => runCycles_cons_abort cfg b rest (by rw [hc])⟩

/-- Witness for `cycle_failure_aborts` at a concrete forced-mode failure. -/
theorem cycle_failure_aborts_witness :
    (runCycle cfg0 bSetModeFail).2 = true ∧
    (∃ m, Event.logError m ∈ (runCycle cfg0 bSetModeFail).1) ∧
    (runCycle cfg0 bSetModeFail).1.filter isPublish = [] ∧
    (runCycle cfg0 bSetModeFail).1.filter isSleep = [] ∧
    ∀ rest, runCycles cfg0 (bSetModeFail :: rest) = ((runCycle cfg0 bSetModeFail).1, true) :=
  cycle_failure_aborts cfg0 bSetModeFail (Or.inl ⟨"bus fault", rfl⟩)

/-- C10 counterexample: an iteration whose read returned NewData but whose
first point build failed publishes nothing — and, against the claim, does
not end with the interval sleep: it aborts before sleeping. -/
theorem loop_body_cex :
    bBuildFail.setMode = .ok () ∧
    bBuildFail.read = .ok (data0, FieldDataCondition.NewData) ∧
    (runCycle cfg0 bBuildFail).1.filter isSleep = [] ∧
    (runCycle cfg0 bBuildFail).1.getLast? ≠ some (Event.sleepMs cfg0.profile_dur) := by
  refine ⟨rfl, rfl, rfl, ?_⟩
  decide

/-- C10 amended: every non-aborting iteration starts by setting forced mode
and then reading, and ends with the tripled-profile sleep, whatever the
validity and whether the publish succeeded; on the NoNewData path nothing
happens between the read and the sleep.  (Aborting iterations — mode-set,
read or build failures — never reach the sleep; see
`cycle_failure_aborts`.) -/
theorem loop_body_invariant (cfg : LoopConfig) (b : CycleBehavior)
    (h : (runCycle cfg b).2 = false) :
    ∃ mid, (runCycle cfg b).1 =
        [Event.setForcedMode, Event.sensorRead] ++ mid ++ [Event.sleepMs cfg.profile_dur] ∧
      ∀ d, b.read = .ok (d, FieldDataCondition.NoNewData) → mid = [] := by
  rcases hsm : b.setMode with e | u
  · simp [runCycle, hsm] at h
  · rcases hr : b.read with e | ⟨d, st⟩
    · simp [runCycle, hsm, hr] at h
    · rcases st with _ | _
      · rcases hbp : buildPoints cfg.host_tag d b with ⟨n, e⟩ | pts
        · simp [runCycle, hsm, hr, hbp] at h
        · rcases hwr : b.write with e | u2
          · exact ⟨[.publish cfg.influx_organization cfg.influx_bucket pts,
                    .logError ("Failed to write data points to influxdb: " ++ e)],
                   by simp [runCycle, hsm, hr, hbp, hwr],
                   by intro d2 hd2; simp [hr] at hd2⟩
          · exact ⟨[.publish cfg.influx_organization cfg.influx_bucket pts],
                   by simp [runCycle, hsm, hr, hbp, hwr],
                   by intro d2 hd2; simp [hr] at hd2⟩
      · exact ⟨[], by simp [runCycle, hsm, hr], fun d2 _ => rfl⟩

/-- Witness for `loop_body_invariant` at a concrete NoNewData iteration. -/
theorem loop_body_invariant_witness :
    ∃ mid, (runCycle cfg0 bNoNew).1 =
        [Event.setForcedMode, Event.sensorRead] ++ mid ++ [Event.sleepMs cfg0.profile_dur] ∧
      ∀ d, bNoNew.read = .ok (d, FieldDataCondition.NoNewData) → mid = [] :=
  loop_body_invariant cfg0 bNoNew rfl

/-- C6 counterexample: a run in which every input the claim lists is
present or succeeds — the four influx variables are set, the bus opens, the
settings are accepted, the profile query succeeds, and indeed the whole of
startup succeeds — yet the process terminates on its own, through the first
steady-state iteration failing and aborting `main`. -/
theorem fatal_startup_cex :
    (env0.vars "INFLUX_TOKEN").isSome = true ∧
    (env0.vars "INFLUX_BUCKET").isSome = true ∧
    (env0.vars "INFLUX_ADDRESS").isSome = true ∧
    (env0.vars "INFLUX_ORGANIZATION").isSome = true ∧
    exOk hw0.i2cOpen = true ∧ exOk hw0.setSettings = true ∧
    exOk hw0.profileDur = true ∧
    exOk (startup parse0 env0 hw0) = true ∧
    (runProgram parse0 env0 hw0 [bSetModeFail]).2 = true := by
  decide

/-- C6 amended: a missing influx variable, a failed bus open, rejected
sensor settings or a failed profile query each make startup fail before the
loop, with the logged error as the sole event of the run and a non-zero
exit; when startup succeeds the run only aborts through a steady-state
cycle failure — over failure-free cycles it never terminates on its own. -/
theorem fatal_startup (parseF : String → Option ℚ) (env : Env) (hw : HwBehavior) :
    ((env.vars "INFLUX_TOKEN" = none ∨ env.vars "INFLUX_BUCKET" = none ∨
      env.vars "INFLUX_ADDRESS" = none ∨ env.vars "INFLUX_ORGANIZATION" = none ∨
      exOk hw.i2cOpen = false ∨ exOk hw.setSettings = false ∨
      exOk hw.profileDur = false) →
      ∃ m, startup parseF env hw = .error m ∧
        ∀ cycles, runProgram parseF env hw cycles = ([Event.logError m], true)) ∧
    (∀ c cycles, startup parseF env hw = .ok c → (∀ b ∈ cycles, cycleOk b = true) →
      (runProgram parseF env hw cycles).2 = false) := by
  constructor
  · intro hfail
    rcases hres : startup parseF env hw with m | c
    · exact ⟨m, rfl, fun cycles => by simp [runProgram, hres]⟩
    · exfalso
      obtain ⟨hd, ht, hbu, ha, ho, hh, hp, hi, hbm, hs, hpd⟩ :=
        startup_ok_spec parseF env hw c hres
      rcases hfail with h | h | h | h | h | h | h <;> simp_all [exOk]
  · intro c cycles hres hok
    have hrc := runCycles_ok (mkLoopConfig c) cycles hok
    simp [runProgram, hres, hrc]

/-- Witness for `fatal_startup`: a missing token is fatal before the loop;
a clean startup followed by a failure-free cycle does not abort. -/
theorem fatal_startup_witness :
    (∃ m, startup parse0 envNoToken hw0 = .error m ∧
      ∀ cycles, runProgram parse0 envNoToken hw0 cycles = ([Event.logError m], true)) ∧
    (runProgram parse0 env0 hw0 [bGood]).2 = false :=
  ⟨(fatal_startup parse0 envNoToken hw0).1 (Or.inl (by decide)),
   (fatal_startup parse0 env0 hw0).2 startCfg0 [bGood] (by decide) (by decide)⟩

/-- C7 (host tag default): under a successful startup, an unset `HOSTNAME`
resolves the host tag to the sentinel string `unknown`, a set one is used
unchanged, and every point of every batch the run publishes carries exactly
that tag. -/
theorem host_tag_default (parseF : String → Option ℚ) (env : Env) (hw : HwBehavior)
    (c : StartCfg) (h : startup parseF env hw = .ok c) :
    (env.vars "HOSTNAME" = none → c.host_tag = "unknown") ∧
    (∀ s, env.vars "HOSTNAME" = some s → c.host_tag = s) ∧
    (∀ cycles org bucket pts,
      Event.publish org bucket pts ∈ (runProgram parseF env hw cycles).1 →
      ∀ pt ∈ pts, pt.tags = [("host", c.host_tag)]) := by
  obtain ⟨-, -, -, -, -, hh, -, -, -, -, -⟩ := startup_ok_spec parseF env hw c h
  refine ⟨?_, ?_, ?_⟩
  · intro hn; rw [hh, hn]; rfl
  · intro s hs; rw [hh, hs]; rfl
  · intro cycles org bucket pts hpub pt hpt
    have hmem : Event.publish org bucket pts ∈ (runCycles (mkLoopConfig c) cycles).1 := by
      simp [runProgram, h] at hpub
      exact hpub
    have htags := (runCycles_publish (mkLoopConfig c) cycles org bucket pts hmem).2.2 pt hpt
    simpa [mkLoopConfig] using htags

/-- Witness for `host_tag_default` on the `HOSTNAME`-less environment. -/
theorem host_tag_default_witness :
    (env0.vars "HOSTNAME" = none → startCfg0.host_tag = "unknown") ∧
    (∀ s, env0.vars "HOSTNAME" = some s → startCfg0.host_tag = s) ∧
    (∀ cycles org bucket pts,
      Event.publish org bucket pts ∈ (runProgram parse0 env0 hw0 cycles).1 →
      ∀ pt ∈ pts, pt.tags = [("host", startCfg0.host_tag)]) :=
  host_tag_default parse0 env0 hw0 startCfg0 (by decide)

/-- C8 (temperature offset parsing): with `TEMP_OFFSET` unset the program
parses the substituted literal `"0"` — offset 0.0 — and startup proceeds
(succeeding outright when the remaining steps succeed); with `TEMP_OFFSET`
set to an unparsable string, startup fails fatally and the logged offset
error is the sole event of the run. -/
theorem temp_offset_parsing (parseF : String → Option ℚ) (env : Env) (hw : HwBehavior) :
    (env.vars "TEMP_OFFSET" = none → parseF "0" = some 0 →
      ∀ t bu a o p, env.dotenvLoad = .ok () →
        env.vars "INFLUX_TOKEN" = some t → env.vars "INFLUX_BUCKET" = some bu →
        env.vars "INFLUX_ADDRESS" = some a → env.vars "INFLUX_ORGANIZATION" = some o →
        hw.i2cOpen = .ok () → hw.bmeInit = .ok () → hw.setSettings = .ok () →
        hw.profileDur = .ok p →
        startup parseF env hw =
          .ok { influx_token := t, influx_bucket := bu, influx_address := a,
                influx_organization := o,
                host_tag := (env.vars "HOSTNAME").getD "unknown",
                temperature_offset := 0, rawProfileDur := p }) ∧
    (∀ s, env.vars "TEMP_OFFSET" = some s → parseF s = none →
      env.dotenvLoad = .ok () →
      (env.vars "INFLUX_TOKEN").isSome = true →
      (env.vars "INFLUX_BUCKET").isSome = true →
      (env.vars "INFLUX_ADDRESS").isSome = true →
      (env.vars "INFLUX_ORGANIZATION").isSome = true →
      startup parseF env hw = .error "Failed to load temp offset from TEMP_OFFSET" ∧
      ∀ cycles, runProgram parseF env hw cycles =
        ([Event.logError "Failed to load temp offset from TEMP_OFFSET"], true)) := by
  constructor
  · intro hto hp0 t bu a o p h1 h2 h3 h4 h5 h6 h7 h8 h9
    have h6p : parseF ((env.vars "TEMP_OFFSET").getD "0") = some 0 := by
      rw [hto]; exact hp0
    exact startup_ok_of parseF env hw t bu a o 0 p h1 h2 h3 h4 h5 h6p h6 h7 h8 h9
  · intro s hs hp h1 h2 h3 h4 h5
    have herr := startup_offset_error parseF env hw s h1 h2 h3 h4 h5 hs hp
    exact ⟨herr, fun cycles => by simp [runProgram, herr]⟩

/-- Witness for `temp_offset_parsing`: unset offset succeeds with 0; the
string `zero` is fatal. -/
theorem temp_offset_parsing_witness :
    startup parse0 env0 hw0 =
      .ok { influx_token := "token0", influx_bucket := "bucket0",
            influx_address := "influx.local:8086", influx_organization := "org0",
            host_tag := (env0.vars "HOSTNAME").getD "unknown",
            temperature_offset := 0, rawProfileDur := 1500 } ∧
    startup parse0 envBadOffset hw0 =
      .error "Failed to load temp offset from TEMP_OFFSET" :=
  ⟨(temp_offset_parsing parse0 env0 hw0).1 (by decide) (by decide)
      "token0" "bucket0" "influx.local:8086" "org0" 1500
      rfl (by decide) (by decide) (by decide) (by decide) rfl rfl rfl rfl,
   ((temp_offset_parsing parse0 envBadOffset hw0).2 "zero" (by decide) (by decide)
      rfl (by decide) (by decide) (by decide) (by decide)).1⟩

/-- C9 (warm-up once): after a successful startup the run emits the two
profile log lines and the warm-up announcement, then exactly one fixed
5-minute sleep — before any sensor trigger — then the start announcement
and the loop, in which every sleep is the tripled-profile interval sleep. -/
theorem warmup_once (parseF : String → Option ℚ) (env : Env) (hw : HwBehavior)
    (cycles : List CycleBehavior) (c : StartCfg)
    (h : startup parseF env hw = .ok c) :
    ∃ post,
      (runProgram parseF env hw cycles).1 =
        [Event.logInfo ("Profile duration set to: " ++ toString c.rawProfileDur),
         Event.logInfo ("Tripling duration to: " ++ toString (tripleDur c.rawProfileDur)),
         Event.logInfo "Waiting 5m for device to stabilize before reading.",
         Event.sleepMs warmupMs,
         Event.logInfo "Starting readings."] ++ post ∧
      post = (runCycles (mkLoopConfig c) cycles).1 ∧
      ∀ e ∈ post, isSleep e = true → e = Event.sleepMs (tripleDur c.rawProfileDur) := by
  refine ⟨(runCycles (mkLoopConfig c) cycles).1, ?_, rfl, ?_⟩
  · simp [runProgram, h, mkLoopConfig]
  · intro e he hs
    have := runCycles_sleep (mkLoopConfig c) cycles e he hs
    simpa [mkLoopConfig] using this

/-- Witness for `warmup_once` on a clean startup and one good cycle. -/
theorem warmup_once_witness :
    ∃ post,
      (runProgram parse0 env0 hw0 [bGood]).1 =
        [Event.logInfo ("Profile duration set to: " ++ toString startCfg0.rawProfileDur),
         Event.logInfo ("Tripling duration to: " ++ toString (tripleDur startCfg0.rawProfileDur)),
         Event.logInfo "Waiting 5m for device to stabilize before reading.",
         Event.sleepMs warmupMs,
         Event.logInfo "Starting readings."] ++ post ∧
      post = (runCycles (mkLoopConfig startCfg0) [bGood]).1 ∧
      ∀ e ∈ post, isSleep e = true → e = Event.sleepMs (tripleDur startCfg0.rawProfileDur) :=
  warmup_once parse0 env0 hw0 [bGood] startCfg0 (by decide)

end Atmosphere
